import Mathlib

/-!
Verification of the peer-client identification engine and message codec of
this repository against its specification.

The client identifier lives in
`src/beacon_node/eth2_libp2p/src/peer_manager/client.rs`; its core is the
function `client_from_agent_version`, which splits the agent-version string
on `/` and dispatches on the first field.  We embed Rust string splitting
(`str::split`), integer parsing (`i32::from_str`) and the classification
function itself, then prove the claimed properties.
-/

namespace LighthouseSpec

/-- One group-splitting step of Rust `str::split` over character lists.
`fuel` bounds recursion depth so the definition is structural and reduces
in the kernel; `fuel = cs.length` always suffices because every step either
finishes or strictly shortens the list (the separator is nonempty). -/
def splitSeqAux (sep : List Char) (fuel : Nat) (cs : List Char) :
    List (List Char) :=
  match fuel, cs with
  | 0, cs => [cs]
  | _ + 1, [] => [[]]
  | fuel + 1, c :: rest =>
    if sep.isPrefixOf (c :: rest) then
      [] :: splitSeqAux sep fuel ((c :: rest).drop sep.length)
    else
      match splitSeqAux sep fuel rest with
      | [] => [[c]]
      | g :: gs => (c :: g) :: gs

/-- Rust `str::split` with a nonempty separator pattern, over strings:
splits at each non-overlapping leftmost occurrence of `sep`; the result is
never empty, and splitting the empty string yields `[""]`. -/
def rustSplit (sep : String) (s : String) : List String :=
  (splitSeqAux sep.data s.data.length s.data).map (fun g => String.mk g)

/-- Numeric value of a list of decimal digit characters. -/
def digitsToNat (ds : List Char) : Nat :=
  ds.foldl (fun acc c => acc * 10 + (c.toNat - 48)) 0

/-- Rust `i32::from_str` (as used by `parse::<i32>()` in the source):
an optional leading `+` or `-` sign, then one or more ASCII decimal digits,
and the value must fit in the `i32` range; anything else is a parse error. -/
def parseI32 (s : String) : Option Int :=
  let signDigits : Int × List Char :=
    match s.data with
    | '+' :: rest => (1, rest)
    | '-' :: rest => (-1, rest)
    | cs => (1, cs)
  let sign := signDigits.1
  let digits := signDigits.2
  if digits ≠ [] ∧ digits.all Char.isDigit then
    let v : Int := sign * digitsToNat digits
    if -(2 ^ 31) ≤ v ∧ v ≤ 2 ^ 31 - 1 then some v else none
  else none

/-- The client kinds of `client.rs` (enum `ClientKind`). -/
inductive ClientKind where
  | Lighthouse
  | LighthouseOld
  | Nimbus
  | Teku
  | Prysm
  | PrysmOld
  | Lodestar
  | Unknown
  deriving DecidableEq, Repr

/-- The 38 historical build-commit hashes excluded at the alpha-24
threshold in the `Prysm` arm of `client_from_agent_version` (the chain of
`version != "..."` comparisons, lines 196-233 of `client.rs`). -/
def prysmExcludedHashes : List String :=
  [ "245c18784eda370ea3218e8704651edad763978d"
  , "9219dc77ff6d99c18a618d5d86dc12279576238e"
  , "1de230110d6bfc544fb753928d3e8d32284d54d8"
  , "b6607fac25414d99d1e3c90dc002feba14dfb783"
  , "e6277ec536c3891024e230d3439728987978392e"
  , "0961fef727413165b418028f45eea9816cfc929d"
  , "366b98ac83b38b38527dac6275e4b5ac270298cc"
  , "c2425e81d79a17f19e831b383ae68cfcfdaf253e"
  , "8f2950d374bb4e0e0fcfa954c7931116552f52e6"
  , "f4a68643439f3db856ca6e027f6afdf6b63f0cf7"
  , "c1a7c65e0516aaa33ffe1cd9169b24d1805b1a65"
  , "7fd2536d54f924a675b5b3ba4f9fc6bd51fe88ac"
  , "0e6797d80d7d4dfaa381c93a0b52fbb902e231af"
  , "b2b4c2660df92600f535abb19c896c89e11fd740"
  , "787857c38b26bd6fdb25b06bec33b5726f04b2f1"
  , "1cc21ed3c42cf4ccf2c5b2740378fa4b32a61a8e"
  , "7588e491ab1c77afb9d589681d72adf841c46eaa"
  , "afce363e00f875a3ed86ea18f1d005234f5625cd"
  , "7de3ce0b31a0c5bec47010a60d45d1ea0328a572"
  , "6e6b871cc157550351878ac7c7750505bc76c725"
  , "2349012bd007fdd6f7cd6e1f1ed2eb05adf6cc6e"
  , "b4c0a89d49c7bc7d20aedb69a09494ae0b61572e"
  , "d368156a08a282085255c4e1a916903a400f492d"
  , "63149a3dc3787e73380d8f807767d2b5124960c0"
  , "fbe088625aae04b6616250d46452fc0471b4324e"
  , "ecbab20bad63829ef4bd1ecc15f2c5085b145fea"
  , "381b5be0fc917d326b482670f672c398cc10c665"
  , "6803f3308a8994b1f9f00b53872c3a49c4a80977"
  , "60558b7970a9aefafc79407410cc0ecc97b61b40"
  , "7854b91ae035b47e754104d2206420ebb9588ee0"
  , "c9c7cc7b9367fc71bc144237cd597eba3bfc9a09"
  , "b538f5073d765093b6affc8dd983ef4130b82375"
  , "3ed7b23ed7e937d31bd2975c34d8df6970e8d6a4"
  , "c2b94d04ed27f908c4f3bb2850b132c50da63219"
  , "3316516d22cfbed13bf0f0b3b31295065acf68f6"
  , "12c1daaf2b32d4b2fd58737681bf877196971d61"
  , "f09620c9f609b36eb8b48bfa0224c6bfa72922a6"
  , "e47e7067c4ff973e6bf64c98cbc049e36c5da4cc" ]

/-- The version-threshold check of the `Lighthouse` arm, lines 137-156 of
`client.rs`, over the dot-components of the first `-`-piece of the version
field: require the literal `v0`, then compare the numeric components
against the thresholds (`part2 > 2`, or `part2 == 2 && part3 >= 10`). -/
def lighthouseKindOfParts (comps : List String) : ClientKind :=
  match comps with
  | part1 :: rest =>
    if part1 = "v0" then
      match rest with
      | part2 :: rest2 =>
        match parseI32 part2 with
        | some part2_i =>
          if part2_i > 2 then ClientKind.Lighthouse
          else if part2_i = 2 then
            match rest2 with
            | part3 :: _ =>
              match parseI32 part3 with
              | some part3_i =>
                if part3_i ≥ 10 then ClientKind.Lighthouse
                else ClientKind.LighthouseOld
              | none => ClientKind.LighthouseOld
            | [] => ClientKind.LighthouseOld
          else ClientKind.LighthouseOld
        | none => ClientKind.LighthouseOld
      | [] => ClientKind.LighthouseOld
    else ClientKind.LighthouseOld
  | [] => ClientKind.LighthouseOld

/-- The `Lighthouse` arm of `client_from_agent_version`, lines 135-157:
split the version field on `-`, split the first piece on `.`, and run the
threshold check on the dot-components. -/
def lighthouseKind (version : String) : ClientKind :=
  lighthouseKindOfParts (rustSplit "." ((rustSplit "-" version).headD ""))

/-- The `Lighthouse` arm over the fields after the family marker: field 2
is the version (default `"unknown"`), field 3 the OS tag; the kind check
runs only when field 2 is present. -/
def lighthouseBranch (rest : List String) : ClientKind × String × String :=
  match rest with
  | [] => (ClientKind.LighthouseOld, "unknown", "unknown")
  | version :: rest2 =>
    (lighthouseKind version, version, rest2.headD "unknown")

/-- The `teku` arm, lines 161-174: field 2 is skipped (`agent_split.next()
.is_some()`), field 3 is the version and field 4 the OS tag. -/
def tekuBranch (rest : List String) : ClientKind × String × String :=
  match rest with
  | [] => (ClientKind.Teku, "unknown", "unknown")
  | _ :: rest2 =>
    match rest2 with
    | [] => (ClientKind.Teku, "unknown", "unknown")
    | version :: rest3 => (ClientKind.Teku, version, rest3.headD "unknown")

/-- The kind check of the `Prysm` arm, lines 180-242: field 2 is split on
`-alpha.`; the kind is `Prysm` when the alpha build number exceeds 24, or
equals 24 and the version (the build commit hash from field 3) is none of
the excluded historical hashes (the chain of `!=` comparisons is the list
membership test here); otherwise, including on numeric parse failure, the
kind stays `PrysmOld`. -/
def prysmKind (alpha_version version : String) : ClientKind :=
  match rustSplit "-alpha." alpha_version with
  | _ :: a_version :: _ =>
    match parseI32 a_version with
    | some a_v =>
      if a_v > 24 ∨ (a_v = 24 ∧ version ∉ prysmExcludedHashes) then
        ClientKind.Prysm
      else ClientKind.PrysmOld
    | none => ClientKind.PrysmOld
  | _ => ClientKind.PrysmOld

/-- Field extraction of the `Prysm` arm: field 3 is the version and field
4 the OS tag, defaulting to `"unknown"`; the kind check uses field 2 (the
release tag split on `-alpha.`) and the extracted version. -/
def prysmBranch (rest : List String) : ClientKind × String × String :=
  match rest with
  | [] => (ClientKind.PrysmOld, "unknown", "unknown")
  | alpha_version :: rest2 =>
    let version := rest2.headD "unknown"
    (prysmKind alpha_version version, version, rest2.tail.headD "unknown")

/-- The `nim-libp2p` and `js-libp2p` arms, lines 243-266: field 2 is the
version, field 3 the OS tag, absent fields default to `"unknown"`. -/
def simpleBranch (kind : ClientKind) (rest : List String) :
    ClientKind × String × String :=
  match rest with
  | [] => (kind, "unknown", "unknown")
  | version :: rest2 => (kind, version, rest2.headD "unknown")

/-- `client_from_agent_version` of `client.rs`, lines 122-272: split the
agent string on `/`, dispatch on the first field, and fall through to
`Unknown` on any unrecognized marker. -/
def client_from_agent_version (agent_version : String) :
    ClientKind × String × String :=
  let parts := rustSplit "/" agent_version
  let first := parts.headD ""
  let rest := parts.tail
  if first = "Lighthouse" then lighthouseBranch rest
  else if first = "teku" then tekuBranch rest
  else if first = "github.com" then
    (ClientKind.PrysmOld, "unknown", "unknown")
  else if first = "Prysm" then prysmBranch rest
  else if first = "nim-libp2p" then simpleBranch ClientKind.Nimbus rest
  else if first = "js-libp2p" then simpleBranch ClientKind.Lodestar rest
  else (ClientKind.Unknown, "unknown", "unknown")

/-- The family markers recognized by the dispatch table of
`client_from_agent_version`. -/
def knownMarkers : List String :=
  ["Lighthouse", "teku", "github.com", "Prysm", "nim-libp2p", "js-libp2p"]

/-- The two identify strings this layer consumes (`IdentifyInfo` fields
used by `client.rs`; the remaining fields of the external libp2p structure
are out of scope). -/
structure IdentifyInfo where
  protocol_version : String
  agent_version : String

/-- The `Client` record of `client.rs`. -/
structure Client where
  kind : ClientKind
  version : String
  os_version : String
  protocol_version : String
  agent_string : Option String
  deriving DecidableEq

/-- `impl Default for Client`, lines 41-51. -/
def Client.default : Client :=
  { kind := ClientKind.Unknown
  , version := "unknown"
  , os_version := "unknown"
  , protocol_version := "unknown"
  , agent_string := none }

/-- `Client::from_identify_info`, lines 53-66. -/
def Client.from_identify_info (info : IdentifyInfo) : Client :=
  let r := client_from_agent_version info.agent_version
  { kind := r.1
  , version := r.2.1
  , os_version := r.2.2
  , protocol_version := info.protocol_version
  , agent_string := some info.agent_version }

/-- The current-version rule for the Lighthouse family as the claim states
it, over the dot-components of the first dash-piece of the version field:
current exactly when the first dot-component is the literal `v0` and
either the second parses as an integer greater than 2, or it parses as
exactly 2 and the third parses as an integer at least 10. -/
def lighthouseCurrentOfParts (comps : List String) : Prop :=
  comps.headD "" = "v0" ∧
    ((∃ n, parseI32 (comps.tail.headD "") = some n ∧ 2 < n) ∨
     (parseI32 (comps.tail.headD "") = some 2 ∧
      ∃ m, parseI32 (comps.tail.tail.headD "") = some m ∧ 10 ≤ m))

/-- The claim-side Lighthouse rule applied to a raw version field. -/
def lighthouseCurrentPerSpec (version : String) : Prop :=
  lighthouseCurrentOfParts (rustSplit "." ((rustSplit "-" version).headD ""))

/-- Modelled from the spec: the two wire encodings of the message codec
(compressed and uncompressed, spec section 4.2).  The codec itself,
`PubsubMessage::encode` and `PubsubMessage::decode` of `eth2_libp2p`, is
not among the provided source files; only its bench caller
`benches/benches.rs` is, so the codec is modelled from the spec here. -/
inductive GossipEncoding where
  | SSZSnappy
  | SSZ
  deriving DecidableEq

/-- Modelled from the spec: the gossiped message categories of the tagged
union (block proposal, attestation, slashing reports, exit request; spec
section 3). -/
inductive GossipKind where
  | BeaconBlock
  | Attestation
  | AttesterSlashing
  | ProposerSlashing
  | VoluntaryExit
  deriving DecidableEq

/-- Modelled from the spec: encode failures (spec section 7). -/
inductive EncodeError where
  | MessageTooLarge
  deriving DecidableEq

/-- Modelled from the spec: decode failures (spec section 7). -/
inductive DecodeError where
  | UnknownTopic
  | DecompressionFailed
  | PayloadTooLarge
  | InvalidPayload
  deriving DecidableEq

/-- Modelled from the spec: a gossip topic — message category, encoding
kind and fork digest (spec section 3). -/
structure GossipTopic where
  kind : GossipKind
  encoding : GossipEncoding
  digest : List Nat
  deriving DecidableEq

/-- Modelled from the spec: `PubsubMessage::encode` (spec section 4.2),
over an abstract payload type and the external serializer and compressor
collaborators: serialize the payload, enforce the category size ceiling on
the uncompressed serialized bytes, and compress exactly when the encoding
choice asks for compression. -/
def encodeMessage {α : Type} (serialize : α → List Nat)
    (compress : List Nat → List Nat) (maxSize : GossipKind → Nat)
    (kind : GossipKind) (encoding : GossipEncoding) (m : α) :
    Except EncodeError (List Nat) :=
  let ser := serialize m
  if ser.length ≤ maxSize kind then
    match encoding with
    | GossipEncoding.SSZSnappy => Except.ok (compress ser)
    | GossipEncoding.SSZ => Except.ok ser
  else Except.error EncodeError.MessageTooLarge

/-- Modelled from the spec: `PubsubMessage::decode` (spec section 4.2):
resolve the message category from the first topic, decompress when that
topic specifies compression, enforce the category size ceiling on the
decompressed bytes, and deserialize into the category payload type; every
failure path returns a typed error. -/
def decodeMessage {α : Type}
    (deserialize : GossipKind → List Nat → Option α)
    (decompress : List Nat → Option (List Nat))
    (maxSize : GossipKind → Nat) (topics : List GossipTopic)
    (data : List Nat) : Except DecodeError α :=
  match topics with
  | [] => Except.error DecodeError.UnknownTopic
  | topic :: _ =>
    let payload : Except DecodeError (List Nat) :=
      match topic.encoding with
      | GossipEncoding.SSZSnappy =>
        match decompress data with
        | none => Except.error DecodeError.DecompressionFailed
        | some d => Except.ok d
      | GossipEncoding.SSZ => Except.ok data
    match payload with
    | Except.error e => Except.error e
    | Except.ok d =>
      if d.length ≤ maxSize topic.kind then
        match deserialize topic.kind d with
        | some m => Except.ok m
        | none => Except.error DecodeError.InvalidPayload
      else Except.error DecodeError.PayloadTooLarge

example : rustSplit "/" "" = [""] := by decide
example : rustSplit "/" "a/b" = ["a", "b"] := by decide
example : rustSplit "/" "a//b/" = ["a", "", "b", ""] := by decide
example : rustSplit "-alpha." "v1.0.0-alpha.24" = ["v1.0.0", "24"] := by decide
example : rustSplit "-alpha." "v1.0.0" = ["v1.0.0"] := by decide
example : parseI32 "24" = some 24 := by decide
example : parseI32 "-5" = some (-5) := by decide
example : parseI32 "" = none := by decide
example : parseI32 "v2" = none := by decide
example : parseI32 "2147483648" = none := by decide
example : parseI32 "2147483647" = some 2147483647 := by decide

example :
    client_from_agent_version "Lighthouse/v0.2.10/x86_64-linux"
      = (ClientKind.Lighthouse, "v0.2.10", "x86_64-linux") := by decide
example :
    client_from_agent_version "Lighthouse/v0.2.9/x86_64-linux"
      = (ClientKind.LighthouseOld, "v0.2.9", "x86_64-linux") := by decide
example :
    client_from_agent_version "teku/v1.2.3/linux-x86_64"
      = (ClientKind.Teku, "linux-x86_64", "unknown") := by decide
example :
    client_from_agent_version "gobbledygook/1.0"
      = (ClientKind.Unknown, "unknown", "unknown") := by decide

theorem parseI32_empty : parseI32 "" = none := rfl

theorem client_eq_lighthouse (s f2 : String) (rest : List String)
    (hs : rustSplit "/" s = "Lighthouse" :: f2 :: rest) :
    client_from_agent_version s
      = (lighthouseKind f2, f2, rest.headD "unknown") := by
  simp [client_from_agent_version, hs, lighthouseBranch]

theorem client_eq_prysm (s f2 : String) (rest : List String)
    (hs : rustSplit "/" s = "Prysm" :: f2 :: rest) :
    client_from_agent_version s = prysmBranch (f2 :: rest) := by
  simp [client_from_agent_version, hs]

theorem lighthouseKindOfParts_cases (comps : List String) :
    lighthouseKindOfParts comps = ClientKind.Lighthouse ∨
      lighthouseKindOfParts comps = ClientKind.LighthouseOld := by
  unfold lighthouseKindOfParts
  repeat' split
  all_goals simp

theorem lighthouseKindOfParts_iff (comps : List String) :
    lighthouseKindOfParts comps = ClientKind.Lighthouse ↔
      lighthouseCurrentOfParts comps := by
  unfold lighthouseKindOfParts lighthouseCurrentOfParts
  cases comps with
  | nil => simp [parseI32_empty]
  | cons p1 rest =>
    by_cases h1 : p1 = "v0"
    · subst h1
      cases rest with
      | nil => simp [parseI32_empty]
      | cons p2 rest2 =>
        cases hp2 : parseI32 p2 with
        | none => simp [hp2]
        | some n =>
          by_cases hgt : n > 2
          · simp [hp2, hgt]
          · by_cases heq : n = 2
            · subst heq
              cases rest2 with
              | nil =>
                simp [hp2, hgt, parseI32_empty]
              | cons p3 rest3 =>
                cases hp3 : parseI32 p3 with
                | none => simp [hp2, hgt, hp3]
                | some m =>
                  by_cases hm : m ≥ 10
                  · simp [hp2, hgt, hm, hp3]
                  · simp [hp2, hgt, hm, hp3]
            · simp [hp2, hgt, heq]
    · simp [h1]

theorem lighthouseKind_iff_spec (v : String) :
    lighthouseKind v = ClientKind.Lighthouse ↔ lighthouseCurrentPerSpec v :=
  lighthouseKindOfParts_iff _

theorem lighthouseKind_cases (v : String) :
    lighthouseKind v = ClientKind.Lighthouse ∨
      lighthouseKind v = ClientKind.LighthouseOld :=
  lighthouseKindOfParts_cases _

/-- Claim C1 fails on the code: for the agent string
`teku/v1.2.3/linux-x86_64` the claimed result is the Teku family with
version `v1.2.3` and OS tag `linux-x86_64`, but the `teku` arm of
`client_from_agent_version` skips field 2 and reads the version from
field 3, so the code returns a different triple. -/
theorem claimC1_counterexample :
    client_from_agent_version "teku/v1.2.3/linux-x86_64"
      ≠ (ClientKind.Teku, "v1.2.3", "linux-x86_64") := by decide

/-- Claim C1, amended: for the input agent-version string
`teku/v1.2.3/linux-x86_64`, classification returns the Teku family with
version `linux-x86_64` and OS tag `unknown`, because the `teku` rule
discards field 2 and takes field 3 as the version and field 4 as the OS
tag. -/
theorem claimC1_amended :
    client_from_agent_version "teku/v1.2.3/linux-x86_64"
      = (ClientKind.Teku, "linux-x86_64", "unknown") := by decide

/-- Claim C2 fails on the code in one point: the frozen exclusion list of
historical Prysm build-commit hashes at the alpha-24 boundary has 38
entries, not the 39 the claim states. -/
theorem claimC2_counterexample :
    prysmExcludedHashes.length = 38 ∧
      ¬ prysmExcludedHashes.length = 39 := by
  decide

/-- Claim C2, amended (the exclusion list has 38 entries, not 39): for
every agent-version string whose first field is `Prysm` and whose second
field contains `-alpha.` followed by text parsing as an integer `n`, with
a third field `v` present: if `n > 24` the kind is the current `Prysm`;
if `n = 24` the kind is `Prysm` exactly when `v` is not one of the 38
frozen excluded hashes; if `n < 24` the kind is the legacy `PrysmOld`. -/
theorem claimC2_amended (s f2 v preAlpha a : String)
    (rest arest : List String) (n : Int)
    (hs : rustSplit "/" s = "Prysm" :: f2 :: v :: rest)
    (ha : rustSplit "-alpha." f2 = preAlpha :: a :: arest)
    (hn : parseI32 a = some n) :
    (24 < n → (client_from_agent_version s).1 = ClientKind.Prysm) ∧
    (n = 24 →
      ((client_from_agent_version s).1 = ClientKind.Prysm ↔
        v ∉ prysmExcludedHashes)) ∧
    (n < 24 → (client_from_agent_version s).1 = ClientKind.PrysmOld) := by
  rw [client_eq_prysm s f2 (v :: rest) hs]
  simp only [prysmBranch, List.headD_cons, List.tail_cons]
  refine ⟨?_, ?_, ?_⟩
  · intro hgt
    simp [prysmKind, ha, hn, hgt]
  · intro h24
    subst h24
    by_cases hv : v ∈ prysmExcludedHashes
    · simp [prysmKind, ha, hn, hv]
    · simp [prysmKind, ha, hn, hv]
  · intro hlt
    have hcond : ¬(24 < n ∨ (n = 24 ∧ v ∉ prysmExcludedHashes)) := by
      rintro (h1 | ⟨h2, _⟩) <;> omega
    simp [prysmKind, ha, hn, hcond]

/-- Witness for claim C2 at the boundary build number 24 with the first
excluded hash as the third field. -/
theorem claimC2_witness :
    (24 < (24 : Int) →
      (client_from_agent_version
        "Prysm/v1.0.0-alpha.24/245c18784eda370ea3218e8704651edad763978d/linux").1
        = ClientKind.Prysm) ∧
    ((24 : Int) = 24 →
      ((client_from_agent_version
        "Prysm/v1.0.0-alpha.24/245c18784eda370ea3218e8704651edad763978d/linux").1
        = ClientKind.Prysm ↔
        "245c18784eda370ea3218e8704651edad763978d" ∉ prysmExcludedHashes)) ∧
    ((24 : Int) < 24 →
      (client_from_agent_version
        "Prysm/v1.0.0-alpha.24/245c18784eda370ea3218e8704651edad763978d/linux").1
        = ClientKind.PrysmOld) :=
  claimC2_amended
    "Prysm/v1.0.0-alpha.24/245c18784eda370ea3218e8704651edad763978d/linux"
    "v1.0.0-alpha.24" "245c18784eda370ea3218e8704651edad763978d" "v1.0.0"
    "24" ["linux"] [] 24 (by decide) (by decide) (by decide)

/-- Claim C3: for every agent-version string whose first field is
`Lighthouse` and whose second field is present, the classification is the
current `Lighthouse` exactly when the spec rule holds of the second field
(first dot-component of the first dash-piece is `v0`, and the second
dot-component parses greater than 2, or parses as exactly 2 with the
third at least 10); in every other case it is the legacy
`LighthouseOld`. -/
theorem claimC3 (s f2 : String) (rest : List String)
    (hs : rustSplit "/" s = "Lighthouse" :: f2 :: rest) :
    ((client_from_agent_version s).1 = ClientKind.Lighthouse ↔
      lighthouseCurrentPerSpec f2) ∧
    ((client_from_agent_version s).1 = ClientKind.Lighthouse ∨
      (client_from_agent_version s).1 = ClientKind.LighthouseOld) := by
  rw [client_eq_lighthouse s f2 rest hs]
  exact ⟨lighthouseKind_iff_spec f2, lighthouseKind_cases f2⟩

/-- Witness for claim C3 at a Lighthouse agent string sitting exactly on
the current side of the threshold. -/
theorem claimC3_witness :
    ((client_from_agent_version "Lighthouse/v0.2.10/x86_64-linux").1
        = ClientKind.Lighthouse ↔ lighthouseCurrentPerSpec "v0.2.10") ∧
    ((client_from_agent_version "Lighthouse/v0.2.10/x86_64-linux").1
        = ClientKind.Lighthouse ∨
      (client_from_agent_version "Lighthouse/v0.2.10/x86_64-linux").1
        = ClientKind.LighthouseOld) :=
  claimC3 "Lighthouse/v0.2.10/x86_64-linux" "v0.2.10" ["x86_64-linux"]
    (by decide)

/-- Claim C4 fails on the code: a Prysm agent string with a beta
pre-release marker and build number 0 is classified as the legacy
`PrysmOld`, not the current `Prysm` — the code recognizes only the
`-alpha.` scheme. -/
theorem claimC4_counterexample :
    (client_from_agent_version "Prysm/v1.0.0-beta.0/somehash").1
        ≠ ClientKind.Prysm ∧
    (client_from_agent_version "Prysm/v1.0.0-beta.0/somehash").1
        = ClientKind.PrysmOld := by decide

/-- Claim C4, amended: for every agent-version string of the Prysm family
whose version field carries a beta pre-release marker and no `-alpha.`
marker, classification returns the legacy `PrysmOld` variant; the code
implements no beta scheme. -/
theorem claimC4_amended (s f2 : String) (rest : List String)
    (hs : rustSplit "/" s = "Prysm" :: f2 :: rest)
    (_hbeta : (rustSplit "-beta." f2).length ≥ 2)
    (halpha : rustSplit "-alpha." f2 = [f2]) :
    (client_from_agent_version s).1 = ClientKind.PrysmOld := by
  rw [client_eq_prysm s f2 rest hs]
  simp [prysmBranch, prysmKind, halpha]

/-- Witness for the amended claim C4 at a beta-marked Prysm agent
string. -/
theorem claimC4_witness :
    ((rustSplit "-beta." "v1.0.0-beta.0").length ≥ 2) ∧
    (client_from_agent_version "Prysm/v1.0.0-beta.0/somehash").1
      = ClientKind.PrysmOld :=
  ⟨by decide,
   claimC4_amended "Prysm/v1.0.0-beta.0/somehash" "v1.0.0-beta.0"
     ["somehash"] (by decide) (by decide) (by decide)⟩

/-- Claim C5: classification is total — for every input string,
`client_from_agent_version` returns a (kind, version, os) triple; in this
embedding it is a total function with no error channel, so the triple
always exists. -/
theorem claimC5 (s : String) :
    ∃ kind version os,
      client_from_agent_version s = (kind, version, os) :=
  ⟨(client_from_agent_version s).1, (client_from_agent_version s).2.1,
    (client_from_agent_version s).2.2, rfl⟩

/-- Claim C6: every agent string whose first field matches none of the
known family markers classifies as `(Unknown, "unknown", "unknown")`; a
record built from an identify event retains the raw agent string; and in
particular `gobbledygook/1.0` classifies as the unknown triple. -/
theorem claimC6 (s : String) (info : IdentifyInfo)
    (h : (rustSplit "/" s).headD "" ∉ knownMarkers) :
    client_from_agent_version s
        = (ClientKind.Unknown, "unknown", "unknown") ∧
    (Client.from_identify_info info).agent_string
        = some info.agent_version ∧
    client_from_agent_version "gobbledygook/1.0"
        = (ClientKind.Unknown, "unknown", "unknown") := by
  refine ⟨?_, rfl, by decide⟩
  simp [knownMarkers, List.headD_eq_head?_getD] at h
  obtain ⟨h1, h2, h3, h4, h5, h6⟩ := h
  simp [client_from_agent_version, List.headD_eq_head?_getD, h1, h2, h3,
    h4, h5, h6]

/-- Witness for claim C6 at the agent string `gobbledygook/1.0`. -/
theorem claimC6_witness :
    client_from_agent_version "gobbledygook/1.0"
        = (ClientKind.Unknown, "unknown", "unknown") ∧
    (Client.from_identify_info ⟨"proto", "gobbledygook/1.0"⟩).agent_string
        = some "gobbledygook/1.0" ∧
    client_from_agent_version "gobbledygook/1.0"
        = (ClientKind.Unknown, "unknown", "unknown") :=
  claimC6 "gobbledygook/1.0" ⟨"proto", "gobbledygook/1.0"⟩ (by decide)

/-- Claim C7: in the legacy-versus-current families, a numeric component
that fails to parse silently yields the legacy variant, with the
extracted version and OS fields intact: this covers a failing minor
component and a failing patch component in the Lighthouse arm, and a
failing alpha build number in the Prysm arm. -/
theorem claimC7 :
    (∀ (s f2 d2 : String) (rest dtail : List String),
      rustSplit "/" s = "Lighthouse" :: f2 :: rest →
      rustSplit "." ((rustSplit "-" f2).headD "") = "v0" :: d2 :: dtail →
      parseI32 d2 = none →
      client_from_agent_version s
        = (ClientKind.LighthouseOld, f2, rest.headD "unknown")) ∧
    (∀ (s f2 d2 d3 : String) (rest dtail : List String),
      rustSplit "/" s = "Lighthouse" :: f2 :: rest →
      rustSplit "." ((rustSplit "-" f2).headD "")
        = "v0" :: d2 :: d3 :: dtail →
      parseI32 d2 = some 2 → parseI32 d3 = none →
      client_from_agent_version s
        = (ClientKind.LighthouseOld, f2, rest.headD "unknown")) ∧
    (∀ (s f2 preAlpha a : String) (rest arest : List String),
      rustSplit "/" s = "Prysm" :: f2 :: rest →
      rustSplit "-alpha." f2 = preAlpha :: a :: arest →
      parseI32 a = none →
      client_from_agent_version s
        = (ClientKind.PrysmOld, rest.headD "unknown",
            rest.tail.headD "unknown")) := by
  refine ⟨?_, ?_, ?_⟩
  · intro s f2 d2 rest dtail hs hd hp
    rw [client_eq_lighthouse s f2 rest hs]
    unfold lighthouseKind
    rw [hd]
    simp [lighthouseKindOfParts, hp]
  · intro s f2 d2 d3 rest dtail hs hd hp2 hp3
    rw [client_eq_lighthouse s f2 rest hs]
    unfold lighthouseKind
    rw [hd]
    simp [lighthouseKindOfParts, hp2, hp3]
  · intro s f2 preAlpha a rest arest hs ha hp
    rw [client_eq_prysm s f2 rest hs]
    simp [prysmBranch, prysmKind, ha, hp]

/-- Witness for claim C7 at three malformed-number agent strings, one per
parse-failure site. -/
theorem claimC7_witness :
    client_from_agent_version "Lighthouse/v0.x/os1"
        = (ClientKind.LighthouseOld, "v0.x", "os1") ∧
    client_from_agent_version "Lighthouse/v0.2.x/os2"
        = (ClientKind.LighthouseOld, "v0.2.x", "os2") ∧
    client_from_agent_version "Prysm/v1.0.0-alpha.zz/somehash/os3"
        = (ClientKind.PrysmOld, "somehash", "os3") :=
  ⟨claimC7.1 "Lighthouse/v0.x/os1" "v0.x" "x" ["os1"] []
      (by decide) (by decide) (by decide),
   claimC7.2.1 "Lighthouse/v0.2.x/os2" "v0.2.x" "2" "x" ["os2"] []
      (by decide) (by decide) (by decide) (by decide),
   claimC7.2.2 "Prysm/v1.0.0-alpha.zz/somehash/os3" "v1.0.0-alpha.zz"
      "v1.0.0" "zz" ["somehash", "os3"] []
      (by decide) (by decide) (by decide)⟩

/-- Claim C8: the records produced by the two public constructors satisfy
the invariant — a record of Unknown family has version `unknown` unless
the raw agent string was captured. -/
theorem claimC8 (info : IdentifyInfo) :
    (Client.default.kind = ClientKind.Unknown →
      Client.default.version = "unknown" ∨
        Client.default.agent_string ≠ none) ∧
    ((Client.from_identify_info info).kind = ClientKind.Unknown →
      (Client.from_identify_info info).version = "unknown" ∨
        (Client.from_identify_info info).agent_string ≠ none) := by
  constructor
  · intro _
    exact Or.inl rfl
  · intro _
    refine Or.inr ?_
    simp [Client.from_identify_info]

/-- Witness for claim C8 at a concrete identify event whose agent string
is unrecognized, so both antecedents hold. -/
theorem claimC8_witness :
    (Client.default.version = "unknown" ∨
      Client.default.agent_string ≠ none) ∧
    ((Client.from_identify_info ⟨"proto", "agent"⟩).version = "unknown" ∨
      (Client.from_identify_info ⟨"proto", "agent"⟩).agent_string ≠ none) :=
  ⟨(claimC8 ⟨"proto", "agent"⟩).1 (by decide),
   (claimC8 ⟨"proto", "agent"⟩).2 (by decide)⟩

/-- Claim C9 (spec-modelled codec): for every message category, both the
compressed and the uncompressed encoding, and every message within the
size bound of its category, encoding succeeds and decoding the encoded
bytes with the same topic reproduces the message, assuming the external
collaborators invert (deserialize after serialize, decompress after
compress). -/
theorem claimC9 {α : Type} (serialize : α → List Nat)
    (deserialize : GossipKind → List Nat → Option α)
    (compress : List Nat → List Nat)
    (decompress : List Nat → Option (List Nat))
    (maxSize : GossipKind → Nat) (kind : GossipKind)
    (encoding : GossipEncoding) (digest : List Nat) (m : α)
    (hser : deserialize kind (serialize m) = some m)
    (hcomp : ∀ b, decompress (compress b) = some b)
    (hsize : (serialize m).length ≤ maxSize kind) :
    ∃ wire,
      encodeMessage serialize compress maxSize kind encoding m
        = Except.ok wire ∧
      decodeMessage deserialize decompress maxSize
          [⟨kind, encoding, digest⟩] wire
        = Except.ok m := by
  cases encoding with
  | SSZSnappy =>
    refine ⟨compress (serialize m), ?_, ?_⟩
    · simp [encodeMessage, hsize]
    · simp [decodeMessage, hcomp, hsize, hser]
  | SSZ =>
    refine ⟨serialize m, ?_, ?_⟩
    · simp [encodeMessage, hsize]
    · simp [decodeMessage, hsize, hser]

/-- Witness for claim C9 with a concrete one-byte codec over natural
numbers, the identity compressor, and the compressed encoding. -/
theorem claimC9_witness :
    ∃ wire,
      encodeMessage (fun n : Nat => [n]) (fun b => b) (fun _ => 1)
          GossipKind.BeaconBlock GossipEncoding.SSZSnappy 7
        = Except.ok wire ∧
      decodeMessage
          (fun _ b => match b with | [n] => some n | _ => none)
          (fun b => some b) (fun _ => 1)
          [⟨GossipKind.BeaconBlock, GossipEncoding.SSZSnappy,
            [0, 0, 0, 0]⟩] wire
        = Except.ok 7 :=
  claimC9 (fun n : Nat => [n])
    (fun _ b => match b with | [n] => some n | _ => none)
    (fun b => b) (fun b => some b) (fun _ => 1)
    GossipKind.BeaconBlock GossipEncoding.SSZSnappy [0, 0, 0, 0] 7
    rfl (fun _ => rfl) (by decide)

/-- Claim C10: every agent-version string whose first field is
`github.com` classifies as the legacy Prysm variant with version and OS
tag `unknown`, regardless of the remaining fields. -/
theorem claimC10 (s : String) (rest : List String)
    (hs : rustSplit "/" s = "github.com" :: rest) :
    client_from_agent_version s
      = (ClientKind.PrysmOld, "unknown", "unknown") := by
  simp [client_from_agent_version, hs]

/-- Witness for claim C10 at a historical Prysm agent string. -/
theorem claimC10_witness :
    client_from_agent_version "github.com/prysmaticlabs/prysm/v1.0.0/linux"
      = (ClientKind.PrysmOld, "unknown", "unknown") :=
  claimC10 "github.com/prysmaticlabs/prysm/v1.0.0/linux"
    ["prysmaticlabs", "prysm", "v1.0.0", "linux"] (by decide)

end LighthouseSpec
